import Mathlib

/-!
Verification development for the Neo4j Transfer Tool
(src/neo4j_transfer_streamlit/main.py).

We give a shallow embedding of the transfer workflow controller: the
`execute_transfer` gating logic (Start Transfer button, empty-selection
guard, purge-confirmation gate, confirmation-flag reset), the
`run_transfer` execution loop (optional purge via `reset_target_db`,
iteration over `transfer_generator` with the first yield discarded,
defensive clamping of progress values, logging of a completed attempt at
index 0 of the transfer log, exception handling), the count-preview step
of `render_transfer_options_section`, and the undo path of
`render_sidebar`.

The Transfer Engine (the external `neo4j_transfer` package) is modelled
by an explicit behaviour: the outcome of `reset_target_db` and the list
of events produced by the generator returned by `transfer_generator`
(each event either yields an item or raises).  Observable behaviour is
captured as the list of engine calls issued, the final transfer log, the
user-facing messages, and the progress values applied from the stream.
-/

/-- Mirror of `Neo4jCredentials` as used by `main.py`. -/
structure Neo4jCredentials where
  uri : String
  username : String
  password : String
  database : String
deriving DecidableEq, Repr

/-- Mirror of `TransferSpec(node_labels=..., relationship_types=..., should_append_data=...)`
as constructed in `execute_transfer`. -/
structure TransferSpec where
  node_labels : List String
  relationship_types : List String
  should_append_data : Bool
deriving DecidableEq, Repr

/-- One object yielded by the engine's generator.  `progress v` models an
item whose `float_completed()` returns the number `v`; `noProgress tag`
models an item for which `float_completed()` raises (the loop logs a
warning and `continue`s, but the item is still bound to `result`). -/
inductive StreamItem where
  | progress (v : Rat)
  | noProgress (tag : String)
deriving DecidableEq, Repr

/-- One step of the generator returned by `transfer_generator`: it either
yields an item or raises an exception with a message. -/
inductive GenEvent where
  | yield (item : StreamItem)
  | raiseErr (msg : String)
deriving DecidableEq, Repr

/-- Behaviour of `reset_target_db(t_creds)`: success or an exception. -/
inductive PurgeOutcome where
  | ok
  | raises (msg : String)
deriving DecidableEq, Repr

/-- The Transfer Engine's behaviour for one attempt. -/
structure EngineBehavior where
  purge : PurgeOutcome
  events : List GenEvent
deriving DecidableEq, Repr

/-- Calls that reach the Transfer Engine. -/
inductive EngineCall where
  | resetTargetDatabase (target : Neo4jCredentials)
  | transferStream (source target : Neo4jCredentials) (spec : TransferSpec)
  | getCounts (source : Neo4jCredentials) (labels rels : List String)
  | undoCall (target : Neo4jCredentials) (spec : TransferSpec)
deriving DecidableEq, Repr

/-- User-facing messages (`st.info` / `st.warning` / `st.success` / `st.error`). -/
inductive Message where
  | info (s : String)
  | warning (s : String)
  | success (s : String)
  | error (s : String)
deriving DecidableEq, Repr

/-- One entry of `st.session_state[TRANSFER_LOG]`: the dict inserted at
index 0 in `run_transfer`, holding the timestamp, the `model_dump` of the
spec, and the `model_dump` of the final result. -/
structure TransferLogEntry where
  timestamp : String
  transfer_spec : TransferSpec
  result : StreamItem
deriving DecidableEq, Repr

/-- `max(0.0, min(1.0, float(completion)))` from `run_transfer`. -/
def clamp01 (v : Rat) : Rat := max 0 (min 1 v)

/-- Outcome of the `for result in transfer_gen:` loop: the last bound
`result` (if any), the clamped progress values applied to the progress
bar, and the exception message if the generator raised mid-iteration. -/
structure LoopOut where
  res : Option StreamItem
  upds : List Rat
  err : Option String
deriving DecidableEq, Repr

/-- The `for result in transfer_gen:` loop of `run_transfer`, run over the
remaining events after the first yield was consumed.  Every yielded item
is bound to `result`; items with a working `float_completed()` also apply
a clamped progress update; a raise aborts the loop with the exception. -/
def consumeLoop : List GenEvent → Option StreamItem → List Rat → LoopOut
  | [], res, upds => ⟨res, upds, none⟩
  | GenEvent.yield item :: rest, _, upds =>
      match item with
      | StreamItem.progress v =>
          consumeLoop rest (some (StreamItem.progress v)) (upds ++ [clamp01 v])
      | StreamItem.noProgress t =>
          consumeLoop rest (some (StreamItem.noProgress t)) upds
  | GenEvent.raiseErr m :: _, res, upds => ⟨res, upds, some m⟩

/-- Consumption of the whole generator by `run_transfer`: the initial
`first_yield = next(transfer_gen)` (whose `StopIteration` is caught and
whose yielded item is discarded), followed by the `for` loop over the
rest.  A raise on the very first `next` escapes to the outer handler. -/
def streamLoopOut (events : List GenEvent) : LoopOut :=
  match events with
  | [] => ⟨none, [], none⟩
  | GenEvent.raiseErr m :: _ => ⟨none, [], some m⟩
  | GenEvent.yield _ :: rest => consumeLoop rest none []

/-- Result of the streaming phase: final log, extra messages, applied
stream progress values. -/
structure StreamPhaseOut where
  log : List TransferLogEntry
  messages : List Message
  streamProgress : List Rat
deriving DecidableEq, Repr

/-- Dispatch on the loop outcome, mirroring `run_transfer` after the loop:
a raise is caught by the outer `except` (error surfaced, log untouched);
`if result:` with no result does nothing; otherwise an entry is inserted
at index 0 of the log and a success message is shown. -/
def streamDispatch (spec : TransferSpec) (now : String)
    (log : List TransferLogEntry) (lo : LoopOut) : StreamPhaseOut :=
  match lo with
  | ⟨_, upds, some m⟩ =>
      ⟨log, [Message.error ("Transfer failed: " ++ m)], upds⟩
  | ⟨none, upds, none⟩ => ⟨log, [], upds⟩
  | ⟨some item, upds, none⟩ =>
      ⟨⟨now, spec, item⟩ :: log,
       [Message.success "Transfer completed successfully!"], upds⟩

/-- The streaming phase of `run_transfer` over the generator's events. -/
def streamPhase (spec : TransferSpec) (events : List GenEvent) (now : String)
    (log : List TransferLogEntry) : StreamPhaseOut :=
  streamDispatch spec now log (streamLoopOut events)

/-- Observable result of one `run_transfer` call. -/
structure RunResult where
  calls : List EngineCall
  log : List TransferLogEntry
  messages : List Message
  streamProgress : List Rat
deriving DecidableEq, Repr

/-- Mirror of `run_transfer(t_creds, spec, purge_target)`: optional purge
(whose exception aborts the attempt before `transfer_generator` is
invoked), then the streaming phase; exceptions surface as a
"Transfer failed" error and leave the log untouched. -/
def run_transfer (t_creds : Neo4jCredentials) (spec : TransferSpec)
    (purge_target : Bool) (source_creds : Neo4jCredentials)
    (engine : EngineBehavior) (now : String)
    (log : List TransferLogEntry) : RunResult :=
  if purge_target then
    match engine.purge with
    | PurgeOutcome.raises m =>
        ⟨[EngineCall.resetTargetDatabase t_creds], log,
         [Message.info "Starting transfer...",
          Message.error ("Transfer failed: " ++ m)], []⟩
    | PurgeOutcome.ok =>
        let sp := streamPhase spec engine.events now log
        ⟨[EngineCall.resetTargetDatabase t_creds,
          EngineCall.transferStream source_creds t_creds spec],
         sp.log,
         [Message.info "Starting transfer...",
          Message.success "Target database purged successfully!"]
           ++ sp.messages,
         sp.streamProgress⟩
  else
    let sp := streamPhase spec engine.events now log
    ⟨[EngineCall.transferStream source_creds t_creds spec], sp.log,
     [Message.info "Starting transfer..."] ++ sp.messages,
     sp.streamProgress⟩

/-- How one invocation of `execute_transfer` ended. -/
inductive ExecOutcome where
  | notPressed
  | rejectedEmptyNodes
  | suspendedAtDialog
  | ran
deriving DecidableEq, Repr

/-- Observable result of one `execute_transfer` call: the outcome, the
purge-confirmation session key afterwards (`none` models the key having
been popped), the final transfer log, the engine calls, and messages. -/
structure ExecResult where
  outcome : ExecOutcome
  purge_confirmed : Option Bool
  log : List TransferLogEntry
  calls : List EngineCall
  messages : List Message
deriving DecidableEq, Repr

/-- Mirror of `execute_transfer`: inside `if st.button("Start Transfer")`,
reject an empty node-label selection with a warning; with purge requested
and `st.session_state.get(PURGE_CONFIRMED, False)` falsy, open the
confirmation dialog and return; otherwise pop the confirmation key, build
the `TransferSpec` and call `run_transfer`. -/
def execute_transfer (pressed : Bool) (t_creds : Neo4jCredentials)
    (selected_nodes selected_rels : List String)
    (add_metadata purge_target : Bool) (purge_confirmed : Option Bool)
    (source_creds : Neo4jCredentials) (engine : EngineBehavior)
    (now : String) (log : List TransferLogEntry) : ExecResult :=
  if !pressed then
    ⟨ExecOutcome.notPressed, purge_confirmed, log, [], []⟩
  else if selected_nodes = [] then
    ⟨ExecOutcome.rejectedEmptyNodes, purge_confirmed, log, [],
     [Message.warning "Select at least one node label to transfer"]⟩
  else if purge_target && !(purge_confirmed.getD false) then
    ⟨ExecOutcome.suspendedAtDialog, purge_confirmed, log, [], []⟩
  else
    let spec : TransferSpec := ⟨selected_nodes, selected_rels, add_metadata⟩
    let r := run_transfer t_creds spec purge_target source_creds engine now log
    ⟨ExecOutcome.ran, none, r.log, r.calls, r.messages⟩

/-- The session keys relevant to the count-preview step of
`render_transfer_options_section`. -/
structure PreviewState where
  previous_nodes : Option (List String)
  previous_rels : Option (List String)
  show_refresh_message : Bool
deriving DecidableEq, Repr

/-- Observable result of the count-preview step: updated session state,
engine calls issued, and whether the spinner branch was taken. -/
structure PreviewResult where
  state : PreviewState
  calls : List EngineCall
  spinner : Bool
deriving DecidableEq, Repr

/-- Mirror of the counts portion of `render_transfer_options_section`:
`selections_changed` compares the widget values against the previously
stored copies; the refresh/changed branch queries
`get_node_and_relationship_counts` inside a spinner and updates the
stored copies; the other branch (commented "Use cached counts" in the
source) issues the same count query again without updating state. -/
def render_counts_step (st : PreviewState) (s_creds : Neo4jCredentials)
    (selected_nodes selected_rels : List String) : PreviewResult :=
  if st.show_refresh_message = true ∨ st.previous_nodes ≠ some selected_nodes
      ∨ st.previous_rels ≠ some selected_rels then
    ⟨⟨some selected_nodes, some selected_rels, false⟩,
     [EngineCall.getCounts s_creds selected_nodes selected_rels], true⟩
  else
    ⟨st, [EngineCall.getCounts s_creds selected_nodes selected_rels], false⟩

/-- The session state relevant to the undo path: the transfer log plus the
live selection widgets (which the forward path reads, and the undo path
must not). -/
structure SessionState where
  transfer_log : List TransferLogEntry
  selected_nodes_widget : List String
  selected_rels_widget : List String
deriving DecidableEq, Repr

/-- Replacing the live selection (operator edits the multiselects). -/
def updateSelection (st : SessionState) (ns rs : List String) : SessionState :=
  { st with selected_nodes_widget := ns, selected_rels_widget := rs }

/-- Mirror of the Undo button handler in `render_sidebar`: the spec passed
to `undo` is rebuilt as `TransferSpec(**log.get("transfer_spec", {}))`
from the stored entry at `idx`, never from the live selection. -/
def undo_click (st : SessionState) (idx : Nat)
    (t_creds : Neo4jCredentials) : Option EngineCall :=
  (st.transfer_log.get? idx).map
    (fun e => EngineCall.undoCall t_creds e.transfer_spec)

/-- `True` iff some `st.error` message is present. -/
def containsError (msgs : List Message) : Bool :=
  msgs.any fun m =>
    match m with
    | Message.error _ => true
    | _ => false

/-- `True` iff the transfer-completed success message is present. -/
def transferSucceeded (msgs : List Message) : Bool :=
  msgs.any fun m =>
    match m with
    | Message.success s => s == "Transfer completed successfully!"
    | _ => false

/-- The raw `float_completed()` values the loop body reads from the
stream, in order: values of progress-capable yields after the discarded
first yield, up to (excluding) any raise. -/
def loopRawValues : List GenEvent → List Rat
  | [] => []
  | GenEvent.yield (StreamItem.progress v) :: rest => v :: loopRawValues rest
  | GenEvent.yield (StreamItem.noProgress _) :: rest => loopRawValues rest
  | GenEvent.raiseErr _ :: _ => []

/-- The raw progress values taken from the whole generator run (first
yield discarded, nothing read once the generator raises). -/
def streamRawValues (events : List GenEvent) : List Rat :=
  match events with
  | [] => []
  | GenEvent.raiseErr _ :: _ => []
  | GenEvent.yield _ :: rest => loopRawValues rest

/-- The progress values applied by the loop are exactly the raw values it
reads, each clamped, appended to whatever was applied before. -/
theorem consumeLoop_upds (evs : List GenEvent) :
    ∀ (res : Option StreamItem) (upds : List Rat),
      (consumeLoop evs res upds).upds = upds ++ (loopRawValues evs).map clamp01 := by
  induction evs with
  | nil => intro res upds; simp [consumeLoop, loopRawValues]
  | cons e rest ih =>
      intro res upds
      cases e with
      | yield item =>
          cases item with
          | progress v =>
              simp [consumeLoop, loopRawValues, ih]
          | noProgress t =>
              simp [consumeLoop, loopRawValues, ih]
      | raiseErr m =>
          simp [consumeLoop, loopRawValues]

/-- Over the whole generator run, the applied values are the raw stream
values, clamped. -/
theorem streamLoopOut_upds (events : List GenEvent) :
    (streamLoopOut events).upds = (streamRawValues events).map clamp01 := by
  cases events with
  | nil => simp [streamLoopOut, streamRawValues]
  | cons e rest =>
      cases e with
      | yield item => simp [streamLoopOut, streamRawValues, consumeLoop_upds]
      | raiseErr m => simp [streamLoopOut, streamRawValues]

/-- The dispatch after the loop keeps the applied progress values. -/
theorem streamDispatch_streamProgress (spec : TransferSpec) (now : String)
    (log : List TransferLogEntry) (lo : LoopOut) :
    (streamDispatch spec now log lo).streamProgress = lo.upds := by
  obtain ⟨res, upds, err⟩ := lo
  cases err with
  | none => cases res <;> simp [streamDispatch]
  | some m => simp [streamDispatch]

/-- Log discipline of the dispatch: an error leaves the log untouched,
and the only other change is one insertion at index 0 built from the
attempt's spec, the current timestamp and its result, together with the
success message. -/
theorem streamDispatch_log (spec : TransferSpec) (now : String)
    (log : List TransferLogEntry) (lo : LoopOut) :
    ((∀ m, Message.error m ∈ (streamDispatch spec now log lo).messages →
        (streamDispatch spec now log lo).log = log)
      ∧ ((streamDispatch spec now log lo).log = log
          ∨ ∃ item, (streamDispatch spec now log lo).log = ⟨now, spec, item⟩ :: log
              ∧ Message.success "Transfer completed successfully!"
                  ∈ (streamDispatch spec now log lo).messages)) := by
  obtain ⟨res, upds, err⟩ := lo
  cases err with
  | none =>
      cases res with
      | none => simp [streamDispatch]
      | some item =>
          refine ⟨?_, Or.inr ⟨item, rfl, ?_⟩⟩
          · intro m hm
            simp [streamDispatch] at hm
          · simp [streamDispatch]
  | some m => simp [streamDispatch]

/-- C1: For a transfer attempt with purge requested and the confirmation
flag not granted at the moment Start Transfer is invoked (with a
non-empty node selection), the controller suspends at the confirmation
dialog: no call reaches the Transfer Engine, and the log and the
confirmation key are unchanged. -/
theorem c1_unconfirmed_purge_suspends
    (t_creds source_creds : Neo4jCredentials)
    (selected_nodes selected_rels : List String) (add_metadata : Bool)
    (purge_confirmed : Option Bool) (engine : EngineBehavior)
    (now : String) (log : List TransferLogEntry)
    (hn : selected_nodes ≠ [])
    (hc : purge_confirmed.getD false = false) :
    execute_transfer true t_creds selected_nodes selected_rels add_metadata
        true purge_confirmed source_creds engine now log
      = ⟨ExecOutcome.suspendedAtDialog, purge_confirmed, log, [], []⟩ := by
  simp [execute_transfer, hn, hc]

/-- Witness for C1 at a concrete unconfirmed purge attempt. -/
theorem c1_witness :
    (["Person"] : List String) ≠ []
    ∧ (none : Option Bool).getD false = false
    ∧ execute_transfer true ⟨"bolt://t:7687", "neo4j", "pw", "neo4j"⟩
        ["Person"] [] true true none ⟨"bolt://s:7687", "neo4j", "pw", "neo4j"⟩
        ⟨PurgeOutcome.ok, []⟩ "2024-01-01 00:00:00" []
      = ⟨ExecOutcome.suspendedAtDialog, none, [], [], []⟩ :=
  ⟨by decide, rfl,
   c1_unconfirmed_purge_suspends _ _ _ _ _ _ _ _ _ (by decide) rfl⟩

/-- C2: When the node-label selection is empty, pressing Start Transfer
is rejected with a user-facing warning: no engine call, no change to the
log or the confirmation key, regardless of the selected relationship
types. -/
theorem c2_empty_node_selection_rejected
    (t_creds source_creds : Neo4jCredentials) (selected_rels : List String)
    (add_metadata purge_target : Bool) (purge_confirmed : Option Bool)
    (engine : EngineBehavior) (now : String) (log : List TransferLogEntry) :
    execute_transfer true t_creds [] selected_rels add_metadata purge_target
        purge_confirmed source_creds engine now log
      = ⟨ExecOutcome.rejectedEmptyNodes, purge_confirmed, log, [],
         [Message.warning "Select at least one node label to transfer"]⟩ := rfl

/-- C3: With purge enabled, if `reset_target_db` raises then
`transfer_generator` is never invoked: the only engine call is the reset,
the error is surfaced, the log is unchanged and no progress is applied. -/
theorem c3_purge_failure_aborts_before_transfer
    (t_creds source_creds : Neo4jCredentials) (spec : TransferSpec)
    (m : String) (events : List GenEvent) (now : String)
    (log : List TransferLogEntry) :
    run_transfer t_creds spec true source_creds
        ⟨PurgeOutcome.raises m, events⟩ now log
      = ⟨[EngineCall.resetTargetDatabase t_creds], log,
         [Message.info "Starting transfer...",
          Message.error ("Transfer failed: " ++ m)], []⟩ := rfl

/-- C4: The transfer log admits no other mutation than one insertion at
index 0 of an entry built from the attempt's spec, its result and the
current timestamp, accompanied by the completed-transfer success message;
and any attempt on which an error is surfaced (Failed) leaves the log
exactly as it was. -/
theorem c4_transfer_log_discipline
    (t_creds source_creds : Neo4jCredentials) (spec : TransferSpec)
    (purge_target : Bool) (engine : EngineBehavior) (now : String)
    (log : List TransferLogEntry) :
    (∀ m, Message.error m
        ∈ (run_transfer t_creds spec purge_target source_creds engine now log).messages →
      (run_transfer t_creds spec purge_target source_creds engine now log).log = log)
    ∧ ((run_transfer t_creds spec purge_target source_creds engine now log).log = log
        ∨ ∃ item,
            (run_transfer t_creds spec purge_target source_creds engine now log).log
              = ⟨now, spec, item⟩ :: log
            ∧ Message.success "Transfer completed successfully!"
                ∈ (run_transfer t_creds spec purge_target source_creds engine now log).messages) := by
  obtain ⟨hd, ha⟩ := streamDispatch_log spec now log (streamLoopOut engine.events)
  cases purge_target with
  | false =>
      constructor
      · intro m hm
        simp [run_transfer, streamPhase] at hm ⊢
        exact hd m hm
      · rcases ha with h2 | ⟨item, h2, hmem⟩
        · exact Or.inl (by simp [run_transfer, streamPhase, h2])
        · refine Or.inr ⟨item, by simp [run_transfer, streamPhase, h2], ?_⟩
          have he : (run_transfer t_creds spec false source_creds engine now log).messages
              = Message.info "Starting transfer..."
                  :: (streamDispatch spec now log (streamLoopOut engine.events)).messages := by
            simp [run_transfer, streamPhase]
          rw [he]
          exact List.mem_cons_of_mem _ hmem
  | true =>
      cases hp : engine.purge with
      | raises m =>
          constructor
          · intro m2 hm2
            simp [run_transfer, hp]
          · exact Or.inl (by simp [run_transfer, hp])
      | ok =>
          constructor
          · intro m hm
            simp [run_transfer, hp, streamPhase] at hm ⊢
            exact hd m hm
          · rcases ha with h2 | ⟨item, h2, hmem⟩
            · exact Or.inl (by simp [run_transfer, hp, streamPhase, h2])
            · refine Or.inr ⟨item, by simp [run_transfer, hp, streamPhase, h2], ?_⟩
              have he : (run_transfer t_creds spec true source_creds engine now log).messages
                  = Message.info "Starting transfer..."
                      :: Message.success "Target database purged successfully!"
                      :: (streamDispatch spec now log (streamLoopOut engine.events)).messages := by
                simp [run_transfer, hp, streamPhase]
              rw [he]
              exact List.mem_cons_of_mem _ (List.mem_cons_of_mem _ hmem)

/-- Witness for C4 at a concrete failed attempt: the purge raises, an
error is surfaced, and the log stays empty. -/
theorem c4_witness :
    Message.error ("Transfer failed: " ++ "boom")
      ∈ (run_transfer ⟨"bolt://t:7687", "neo4j", "pw", "neo4j"⟩
          ⟨["Person"], [], true⟩ true ⟨"bolt://s:7687", "neo4j", "pw", "neo4j"⟩
          ⟨PurgeOutcome.raises "boom", []⟩ "2024-01-02 00:00:00" []).messages
    ∧ (run_transfer ⟨"bolt://t:7687", "neo4j", "pw", "neo4j"⟩
        ⟨["Person"], [], true⟩ true ⟨"bolt://s:7687", "neo4j", "pw", "neo4j"⟩
        ⟨PurgeOutcome.raises "boom", []⟩ "2024-01-02 00:00:00" []).log = [] :=
  ⟨List.mem_cons_of_mem _ (List.mem_cons_self _ _),
   (c4_transfer_log_discipline _ _ _ _ _ _ _).1 _
     (List.mem_cons_of_mem _ (List.mem_cons_self _ _))⟩

/-- C5 (counterexample): a stream that reaches end-of-sequence without a
terminal result (here: empty stream) is not treated as Failed and no
"missing result" error is surfaced — the only message is the initial
info, no error message of any kind appears, and the log stays empty. -/
theorem c5_counterexample :
    (run_transfer ⟨"bolt://t:7687", "neo4j", "pw", "neo4j"⟩
        ⟨["Person"], [], true⟩ false ⟨"bolt://s:7687", "neo4j", "pw", "neo4j"⟩
        ⟨PurgeOutcome.ok, []⟩ "2024-01-03 00:00:00" []).messages
      = [Message.info "Starting transfer..."]
    ∧ containsError (run_transfer ⟨"bolt://t:7687", "neo4j", "pw", "neo4j"⟩
        ⟨["Person"], [], true⟩ false ⟨"bolt://s:7687", "neo4j", "pw", "neo4j"⟩
        ⟨PurgeOutcome.ok, []⟩ "2024-01-03 00:00:00" []).messages = false
    ∧ (run_transfer ⟨"bolt://t:7687", "neo4j", "pw", "neo4j"⟩
        ⟨["Person"], [], true⟩ false ⟨"bolt://s:7687", "neo4j", "pw", "neo4j"⟩
        ⟨PurgeOutcome.ok, []⟩ "2024-01-03 00:00:00" []).log = [] :=
  ⟨rfl, rfl, rfl⟩

/-- C5 (amended): for every run of the engine's progress sequence that
reaches end-of-sequence without producing a terminal result object, the
attempt ends silently: the log is unchanged, no error message is
surfaced, and no completed-transfer success message is shown. -/
theorem c5_amended_missing_result_silent
    (t_creds source_creds : Neo4jCredentials) (spec : TransferSpec)
    (purge_target : Bool) (events : List GenEvent) (upds : List Rat)
    (now : String) (log : List TransferLogEntry)
    (h : streamLoopOut events = ⟨none, upds, none⟩) :
    (run_transfer t_creds spec purge_target source_creds
        ⟨PurgeOutcome.ok, events⟩ now log).log = log
    ∧ containsError (run_transfer t_creds spec purge_target source_creds
        ⟨PurgeOutcome.ok, events⟩ now log).messages = false
    ∧ transferSucceeded (run_transfer t_creds spec purge_target source_creds
        ⟨PurgeOutcome.ok, events⟩ now log).messages = false := by
  cases purge_target with
  | false =>
      refine ⟨?_, ?_, ?_⟩ <;>
        simp [run_transfer, streamPhase, h, streamDispatch,
          containsError, transferSucceeded]
  | true =>
      refine ⟨?_, ?_, ?_⟩ <;>
        simp [run_transfer, streamPhase, h, streamDispatch,
          containsError, transferSucceeded]

/-- Witness for the amended C5 at the empty stream. -/
theorem c5_amended_witness :
    streamLoopOut [] = ⟨none, [], none⟩
    ∧ (run_transfer ⟨"bolt://t:7687", "neo4j", "pw", "neo4j"⟩
        ⟨["Person"], [], true⟩ true ⟨"bolt://s:7687", "neo4j", "pw", "neo4j"⟩
        ⟨PurgeOutcome.ok, []⟩ "2024-01-04 00:00:00" []).log = [] :=
  ⟨rfl,
   (c5_amended_missing_result_silent ⟨"bolt://t:7687", "neo4j", "pw", "neo4j"⟩
     ⟨"bolt://s:7687", "neo4j", "pw", "neo4j"⟩ ⟨["Person"], [], true⟩ true [] []
     "2024-01-04 00:00:00" [] rfl).1⟩

/-- C6: every progress value taken from the engine's stream is clamped
into [0, 1] before being applied: the sequence of applied progress values
is exactly the raw stream values mapped through `max 0 (min 1 v)`. -/
theorem c6_progress_values_clamped
    (t_creds source_creds : Neo4jCredentials) (spec : TransferSpec)
    (purge_target : Bool) (events : List GenEvent) (now : String)
    (log : List TransferLogEntry) :
    (run_transfer t_creds spec purge_target source_creds
        ⟨PurgeOutcome.ok, events⟩ now log).streamProgress
      = (streamRawValues events).map (fun v => max 0 (min 1 v)) := by
  have hfun : (fun v : Rat => max 0 (min 1 v)) = clamp01 := rfl
  have h1 : (streamPhase spec events now log).streamProgress
      = (streamRawValues events).map clamp01 := by
    rw [streamPhase, streamDispatch_streamProgress, streamLoopOut_upds]
  rw [hfun]
  cases purge_target with
  | false => simpa [run_transfer] using h1
  | true => simpa [run_transfer] using h1

/-- C7: against the claim, the count-preview step issues a
`get_node_and_relationship_counts` round trip on every render: the call
list is the singleton count query irrespective of the change check, and
in particular the branch for an unchanged selection with no pending
refresh (whose source comment reads "Use cached counts") leaves the state
alone but still sends the engine the count query. -/
theorem c7_count_query_on_every_render
    (st : PreviewState) (s_creds : Neo4jCredentials)
    (selected_nodes selected_rels : List String) :
    (render_counts_step st s_creds selected_nodes selected_rels).calls
        = [EngineCall.getCounts s_creds selected_nodes selected_rels]
    ∧ render_counts_step ⟨some selected_nodes, some selected_rels, false⟩
          s_creds selected_nodes selected_rels
        = ⟨⟨some selected_nodes, some selected_rels, false⟩,
           [EngineCall.getCounts s_creds selected_nodes selected_rels], false⟩ := by
  constructor
  · unfold render_counts_step
    split <;> rfl
  · simp [render_counts_step]

/-- C8: the undo call receives exactly the spec snapshot stored in the
log entry; replacing the live selection afterwards changes neither the
log nor the spec passed to `undo`. -/
theorem c8_undo_receives_stored_snapshot
    (st : SessionState) (idx : Nat) (ns rs : List String)
    (t_creds : Neo4jCredentials) (e : TransferLogEntry)
    (h : st.transfer_log.get? idx = some e) :
    undo_click (updateSelection st ns rs) idx t_creds
        = some (EngineCall.undoCall t_creds e.transfer_spec)
    ∧ (updateSelection st ns rs).transfer_log = st.transfer_log
    ∧ undo_click (updateSelection st ns rs) idx t_creds
        = undo_click st idx t_creds := by
  refine ⟨?_, rfl, rfl⟩
  have hu : undo_click (updateSelection st ns rs) idx t_creds
      = (st.transfer_log.get? idx).map
          (fun e2 => EngineCall.undoCall t_creds e2.transfer_spec) := rfl
  rw [hu, h]
  rfl

/-- Witness for C8: a concrete log entry survives a live-selection change
and drives the undo call with its stored spec. -/
theorem c8_witness :
    (SessionState.mk
        [⟨"2024-01-01 00:00:00", ⟨["Person"], ["ACTED_IN"], true⟩,
          StreamItem.noProgress "TransferResult"⟩]
        ["Person"] ["ACTED_IN"]).transfer_log.get? 0
      = some ⟨"2024-01-01 00:00:00", ⟨["Person"], ["ACTED_IN"], true⟩,
          StreamItem.noProgress "TransferResult"⟩
    ∧ undo_click
        (updateSelection
          (SessionState.mk
            [⟨"2024-01-01 00:00:00", ⟨["Person"], ["ACTED_IN"], true⟩,
              StreamItem.noProgress "TransferResult"⟩]
            ["Person"] ["ACTED_IN"]) ["Movie"] []) 0
        ⟨"bolt://t:7687", "neo4j", "pw", "neo4j"⟩
      = some (EngineCall.undoCall ⟨"bolt://t:7687", "neo4j", "pw", "neo4j"⟩
          ⟨["Person"], ["ACTED_IN"], true⟩) :=
  ⟨rfl,
   (c8_undo_receives_stored_snapshot
     (SessionState.mk
       [⟨"2024-01-01 00:00:00", ⟨["Person"], ["ACTED_IN"], true⟩,
         StreamItem.noProgress "TransferResult"⟩]
       ["Person"] ["ACTED_IN"])
     0 ["Movie"] [] ⟨"bolt://t:7687", "neo4j", "pw", "neo4j"⟩
     ⟨"2024-01-01 00:00:00", ⟨["Person"], ["ACTED_IN"], true⟩,
       StreamItem.noProgress "TransferResult"⟩ rfl).1⟩

/-- C9: whenever Start Transfer proceeds past the confirmation gate
(whether or not purge is enabled), the stored confirmation flag is
popped; consequently a subsequent Start Transfer with purge enabled
suspends at the confirmation dialog instead of purging. -/
theorem c9_confirmation_never_reused
    (t_creds source_creds : Neo4jCredentials)
    (selected_nodes selected_rels : List String)
    (add_metadata purge_target : Bool) (purge_confirmed : Option Bool)
    (engine : EngineBehavior) (now : String) (log : List TransferLogEntry)
    (h : (execute_transfer true t_creds selected_nodes selected_rels add_metadata
            purge_target purge_confirmed source_creds engine now log).outcome
          = ExecOutcome.ran) :
    (execute_transfer true t_creds selected_nodes selected_rels add_metadata
        purge_target purge_confirmed source_creds engine now log).purge_confirmed
      = none
    ∧ ∀ (t2 s2 : Neo4jCredentials) (sn2 sr2 : List String) (am2 : Bool)
        (eng2 : EngineBehavior) (now2 : String) (log2 : List TransferLogEntry),
        sn2 ≠ [] →
        (execute_transfer true t2 sn2 sr2 am2 true
            (execute_transfer true t_creds selected_nodes selected_rels add_metadata
              purge_target purge_confirmed source_creds engine now log).purge_confirmed
            s2 eng2 now2 log2).outcome = ExecOutcome.suspendedAtDialog := by
  have hpc : (execute_transfer true t_creds selected_nodes selected_rels add_metadata
      purge_target purge_confirmed source_creds engine now log).purge_confirmed
        = none := by
    by_cases hn : selected_nodes = []
    · simp [execute_transfer, hn] at h
    · by_cases hg : (purge_target && !(purge_confirmed.getD false)) = true
      · simp [execute_transfer, hn, hg] at h
      · simp [execute_transfer, hn, hg]
  refine ⟨hpc, ?_⟩
  intro t2 s2 sn2 sr2 am2 eng2 now2 log2 hsn2
  rw [hpc]
  simp [execute_transfer, hsn2]

/-- Witness for C9: a no-purge start consumes a stale confirmation, and a
following purge start suspends at the dialog. -/
theorem c9_witness :
    (execute_transfer true ⟨"bolt://t:7687", "neo4j", "pw", "neo4j"⟩
        ["Person"] [] true false (some true)
        ⟨"bolt://s:7687", "neo4j", "pw", "neo4j"⟩ ⟨PurgeOutcome.ok, []⟩
        "2024-01-05 00:00:00" []).outcome = ExecOutcome.ran
    ∧ (execute_transfer true ⟨"bolt://t:7687", "neo4j", "pw", "neo4j"⟩
        ["Person"] [] true true
        (execute_transfer true ⟨"bolt://t:7687", "neo4j", "pw", "neo4j"⟩
          ["Person"] [] true false (some true)
          ⟨"bolt://s:7687", "neo4j", "pw", "neo4j"⟩ ⟨PurgeOutcome.ok, []⟩
          "2024-01-05 00:00:00" []).purge_confirmed
        ⟨"bolt://s:7687", "neo4j", "pw", "neo4j"⟩ ⟨PurgeOutcome.ok, []⟩
        "2024-01-05 00:00:00" []).outcome = ExecOutcome.suspendedAtDialog :=
  ⟨rfl,
   (c9_confirmation_never_reused ⟨"bolt://t:7687", "neo4j", "pw", "neo4j"⟩
     ⟨"bolt://s:7687", "neo4j", "pw", "neo4j"⟩ ["Person"] [] true false
     (some true) ⟨PurgeOutcome.ok, []⟩ "2024-01-05 00:00:00" [] rfl).2
     ⟨"bolt://t:7687", "neo4j", "pw", "neo4j"⟩
     ⟨"bolt://s:7687", "neo4j", "pw", "neo4j"⟩ ["Person"] [] true
     ⟨PurgeOutcome.ok, []⟩ "2024-01-05 00:00:00" [] (by decide)⟩

/-- C10: the first item yielded by the generator is consumed and
discarded: for a stream that yields exactly one item, no progress update
is applied, no result is recorded, the log is unchanged, and no success
or error message is shown — with or without a purge. -/
theorem c10_single_yield_ends_silently
    (item : StreamItem) (t_creds source_creds : Neo4jCredentials)
    (spec : TransferSpec) (now : String) (log : List TransferLogEntry) :
    run_transfer t_creds spec false source_creds
        ⟨PurgeOutcome.ok, [GenEvent.yield item]⟩ now log
      = ⟨[EngineCall.transferStream source_creds t_creds spec], log,
         [Message.info "Starting transfer..."], []⟩
    ∧ run_transfer t_creds spec true source_creds
        ⟨PurgeOutcome.ok, [GenEvent.yield item]⟩ now log
      = ⟨[EngineCall.resetTargetDatabase t_creds,
          EngineCall.transferStream source_creds t_creds spec], log,
         [Message.info "Starting transfer...",
          Message.success "Target database purged successfully!"], []⟩ :=
  ⟨rfl, rfl⟩
